import Mathlib

/-!
Shallow embedding of `src/pymux/utils.py` (the process/terminal-control core
of the pymux terminal multiplexer) together with theorems settling the
specification claims about it.

OS side effects are modelled explicitly: every system call a function performs
is recorded as an action in a trace, and the outcome of each fallible system
call (fork, open, ioctl) is supplied by an environment parameter, so the
embedded functions are pure and executable.
-/

namespace Pymux

/-! ## `daemonize` (utils.py lines 74-128)

`os.fork()` either returns a positive child pid (in the parent), returns 0
(in the child), or raises `OSError`.  A single run of `daemonize` is traced
from the point of view of one OS process; the answers that the successive
`fork` calls give *to that process* determine which of the three process
roles (original invoker, intermediate child, grandchild daemon) the trace
describes.  `fa n` is the answer the (n+1)-th `fork` call returns in the
process being traced. -/

/-- Outcome of one `os.fork()` call as seen by one process. -/
inductive ForkAnswer where
  | parent (pid : Nat)
  | child
  | fail (errno : Nat) (strerror : String)
deriving DecidableEq, Repr

/-- System-level actions performed by `daemonize`, in program order. -/
inductive DAct where
  | fork
  | waitpid (pid : Nat)
  | chdir (path : String)
  | umask (mask : Nat)
  | setsid
  | writeStderr (msg : String)
  | openFile (path : String) (mode : String) (buffering : Option Nat)
  | dup2 (stream : Nat)
deriving DecidableEq, Repr

/-- How a traced run of `daemonize` ends: a `return v` or a `sys.exit(status)`. -/
inductive DOutcome where
  | ret (v : Nat)
  | exit (status : Nat)
deriving DecidableEq, Repr

/-- Direct transcription of `daemonize(stdin, stdout, stderr)`:

* first `try: pid = os.fork()`; on `OSError` write `fork #1 failed` to
  stderr and `sys.exit(1)`; in the parent (`pid > 0`) do `os.waitpid(pid, 0)`
  and `return 0`;
* the first child runs `os.chdir("/")`, `os.umask(0)`, `os.setsid()`, then the
  second `try: pid = os.fork()`; on `OSError` write `fork #2 failed` to stderr
  and `sys.exit(1)`; the second parent does `sys.exit(0)`;
* the grandchild opens `stdin` with mode `rb`, `stdout` with mode `ab+`,
  `stderr` with mode `ab+` and buffering 0, `dup2`s them over streams 0, 1, 2,
  and `return 1`. -/
def daemonize (stdin stdout stderr : String) (fa : Nat → ForkAnswer) :
    List DAct × DOutcome :=
  match fa 0 with
  | .fail errno strerror =>
      ([.fork,
        .writeStderr ("fork #1 failed: (" ++ toString errno ++ ") " ++ strerror ++ "\n")],
       .exit 1)
  | .parent pid => ([.fork, .waitpid pid], .ret 0)
  | .child =>
      let decouple : List DAct := [.fork, .chdir "/", .umask 0, .setsid, .fork]
      match fa 1 with
      | .fail errno strerror =>
          (decouple ++
            [.writeStderr ("fork #2 failed: (" ++ toString errno ++ ") " ++ strerror ++ "\n")],
           .exit 1)
      | .parent _ => (decouple, .exit 0)
      | .child =>
          (decouple ++
            [.openFile stdin "rb" none,
             .openFile stdout "ab+" none,
             .openFile stderr "ab+" (some 0),
             .dup2 0, .dup2 1, .dup2 2],
           .ret 1)

/-- `daemonize` at its Python default arguments (all three default to
`/dev/null`). -/
def daemonizeDefault (fa : Nat → ForkAnswer) : List DAct × DOutcome :=
  daemonize "/dev/null" "/dev/null" "/dev/null" fa

/-- Drop the prefix of a trace up to and including the first `fork` action.
A process created by a `fork` executes exactly the actions recorded after
that `fork` in the trace; the earlier actions were executed by an ancestor
(their effects are merely inherited across `fork`). -/
def afterFirstFork : List DAct → List DAct
  | [] => []
  | .fork :: rest => rest
  | _ :: rest => afterFirstFork rest

/-- The prefix of a trace strictly before its first `fork` action. -/
def beforeFirstFork : List DAct → List DAct
  | [] => []
  | .fork :: _ => []
  | a :: rest => a :: beforeFirstFork rest

/-- Actions executed between the first and the second `fork` call: performed
by the intermediate child process and only inherited by the grandchild. -/
def betweenForks (tr : List DAct) : List DAct :=
  beforeFirstFork (afterFirstFork tr)

/-- Actions recorded after the second `fork` call: exactly the actions the
grandchild process executes itself. -/
def afterSecondFork (tr : List DAct) : List DAct :=
  afterFirstFork (afterFirstFork tr)

/-! ## `nonblocking` (utils.py lines 150-162)

A context manager over one descriptor.  The descriptor's status-flag word is
the state.  `__enter__` saves `orig_fl = fcntl(fd, F_GETFL)` and sets
`orig_fl | O_NONBLOCK`; `__exit__(*args)` — run whether the body finished
normally or raised — sets the flags back to the saved `orig_fl`. -/

/-- Linux value of `os.O_NONBLOCK`. -/
def O_NONBLOCK : Nat := 2048

/-- `nonblocking.__enter__`: returns the saved `orig_fl` and the new flag
word installed on the descriptor. -/
def nonblocking_enter (flags : Nat) : Nat × Nat :=
  (flags, flags ||| O_NONBLOCK)

/-- `nonblocking.__exit__(*args)`: installs exactly the saved `orig_fl`,
ignoring the current flag word and any exception information in `args`. -/
def nonblocking_exit (orig_fl : Nat) (_current : Nat) : Nat :=
  orig_fl

/-- A `with` body: from the flag word at entry it produces its outcome
(normal completion or a raised exception `ε`) and the flag word it leaves
on the descriptor. -/
def ScopeBody (ε : Type) : Type := Nat → Except ε Unit × Nat

/-- One `with nonblocking(fd):` block around `body`.  Python runs
`__exit__` on both the normal and the exceptional exit path and (since
`__exit__` returns `None`) re-raises a pending exception afterwards. -/
def withNonblocking {ε : Type} (flags : Nat) (body : ScopeBody ε) :
    Except ε Unit × Nat :=
  let entered := nonblocking_enter flags
  let r := body entered.2
  (r.1, nonblocking_exit entered.1 r.2)

/-- A sequence of acquire/release pairs on the same descriptor: each scope
starts from the flag word the previous release left behind. -/
def runScopes {ε : Type} (flags : Nat) : List (ScopeBody ε) → Nat
  | [] => flags
  | b :: bs => runScopes (withNonblocking flags b).2 bs

/-! ## `set_terminal_size` (utils.py lines 131-147)

`buf = array.array('h', [rows, cols, 0, 0])` packs four *signed 16-bit*
fields; `array.array` raises `OverflowError` when a value does not fit a
signed short.  `fcntl.ioctl(stdout_fileno, termios.TIOCSWINSZ, buf)` raises
`OSError` unless the descriptor is an open terminal endpoint. -/

/-- Errors `set_terminal_size` can surface. -/
inductive SizeErr where
  | overflowError
  | ioControlError
deriving DecidableEq, Repr

/-- What kind of object the descriptor passed to the ioctl refers to. -/
inductive FdKind where
  | openPtyEndpoint
  | closedDescriptor
  | nonTerminal
deriving DecidableEq, Repr

/-- The window-size structure the `TIOCSWINSZ` ioctl transmits to the
kernel: rows, columns, pixel width, pixel height. -/
structure WinSize where
  ws_row : Int
  ws_col : Int
  ws_xpixel : Int
  ws_ypixel : Int
deriving DecidableEq, Repr

/-- Does `x` fit a C `signed short` (the `'h'` array typecode)? -/
def fitsSignedShort (x : Int) : Bool :=
  decide (-32768 ≤ x ∧ x ≤ 32767)

/-- `array.array('h', xs)`: succeeds with the packed values when every
element fits a signed 16-bit integer, raises `OverflowError` otherwise. -/
def arrayH (xs : List Int) : Except SizeErr (List Int) :=
  if xs.all fitsSignedShort then .ok xs else .error .overflowError

/-- Transcription of `set_terminal_size(stdout_fileno, rows, cols)`: build
the buffer `array.array('h', [rows, cols, 0, 0])`, then issue the
`TIOCSWINSZ` ioctl on the descriptor.  The result is the window size the
kernel receives. -/
def set_terminal_size (fd : FdKind) (rows cols : Int) : Except SizeErr WinSize :=
  match arrayH [rows, cols, 0, 0] with
  | .error e => .error e
  | .ok _ =>
      match fd with
      | .openPtyEndpoint => .ok ⟨rows, cols, 0, 0⟩
      | .closedDescriptor => .error .ioControlError
      | .nonTerminal => .error .ioControlError

/-! ## `cached_property` (utils.py lines 174-223)

The descriptor object holds `ttl`, the wrapped computation `fget` and the
attribute name; the cache itself lives on the *owning instance* as its
`_cache` attribute, a dict mapping attribute name to
`(value, last_update)`.  `__get__` reads `time.time()` (here the explicit
`now` argument), and the wrapped computation reads the owning instance's
state (here the `st` field). -/

/-- The `cached_property` descriptor: `ttl` (seconds), the attribute
name (`self.__name__`) and the wrapped computation (`self.fget`). -/
structure cached_property (σ α : Type) where
  ttl : Int
  name : String
  fget : σ → α

/-- An owning instance: the state its wrapped computations read, and the
`_cache` attribute, absent (`none`) until first assigned. -/
structure Inst (σ α : Type) where
  st : σ
  cache : Option (List (String × α × Int))
deriving Repr

/-- Python dict assignment `d[k] = v` on an association list with unique
keys: overwrite the existing entry or append a new one. -/
def dictSet {α : Type} : List (String × α) → String → α → List (String × α)
  | [], k, v => [(k, v)]
  | (k', v') :: rest, k, v =>
      if k' = k then (k, v) :: rest else (k', v') :: dictSet rest k v

/-- Python `del d[k]`: drop the entry for `k` (dict keys are unique). -/
def dictDel {α : Type} : List (String × α) → String → List (String × α)
  | [], _ => []
  | (k', v') :: rest, k =>
      if k' = k then rest else (k', v') :: dictDel rest k

/-- Transcription of `cached_property.__get__(self, inst, owner)`.

The `try` body looks up `inst._cache[self.__name__]` (an absent `_cache`
raises `AttributeError`, an absent key raises `KeyError`) and, when
`self.ttl > 0 and now - last_update > self.ttl`, raises `AttributeError`;
all three exceptions reach the same handler, which computes
`value = self.fget(inst)`, creates `inst._cache = {}` if missing, and stores
`(value, now)` under the name.  Result: the value returned, the updated
instance, and whether `fget` was invoked. -/
def cached_property.get {σ α : Type} (p : cached_property σ α)
    (inst : Inst σ α) (now : Int) : α × Inst σ α × Bool :=
  let hit : Option (α × Int) :=
    match inst.cache with
    | none => none
    | some c =>
        match c.lookup p.name with
        | none => none
        | some (value, last_update) =>
            if p.ttl > 0 ∧ now - last_update > p.ttl then none
            else some (value, last_update)
  match hit with
  | some (value, _) => (value, inst, false)
  | none =>
      let value := p.fget inst.st
      let c := inst.cache.getD []
      (value, { inst with cache := some (dictSet c p.name (value, now)) }, true)

/-- Manual cache invalidation from the class docstring:
`del instance._cache[<property name>]`. -/
def cached_property.invalidate {σ α : Type} (p : cached_property σ α)
    (inst : Inst σ α) : Inst σ α :=
  { inst with cache := inst.cache.map (fun c => dictDel c p.name) }

/-- A world of two distinct owning instances sharing one `cached_property`
descriptor (the descriptor object itself is shared across instances; the
cache is not — it lives in each instance's `_cache` attribute). -/
structure TwoInsts (σ α : Type) where
  a : Inst σ α
  b : Inst σ α

/-- Cache operations a client can perform on one owning instance: a property
access at some time, or the manual invalidation `del instance._cache[name]`. -/
inductive CacheOp where
  | access (t : Int)
  | invalidate
deriving DecidableEq, Repr

/-- Perform one cache operation on instance `a` of the world. -/
def stepOnA {σ α : Type} (p : cached_property σ α) (w : TwoInsts σ α) :
    CacheOp → TwoInsts σ α
  | .access t => { w with a := (cached_property.get p w.a t).2.1 }
  | .invalidate => { w with a := cached_property.invalidate p w.a }

/-- Perform a sequence of cache operations, all on instance `a`. -/
def runOnA {σ α : Type} (p : cached_property σ α) (w : TwoInsts σ α) :
    List CacheOp → TwoInsts σ α
  | [] => w
  | op :: ops => runOnA p (stepOnA p w op) ops

/-! ## `pty_make_controlling_tty` (utils.py lines 23-71)

`os.open` either succeeds (returning a nonnegative descriptor) or raises
`OSError`; it never returns a negative number, so the `if fd < 0: raise`
branches after the unguarded opens are dead code and do not appear in the
traces.  The environment records which of the four `open` calls succeed. -/

/-- Which `open` calls succeed during one run of `pty_make_controlling_tty`. -/
structure TtyEnv where
  probeOpen : Bool
  reprobeOpen : Bool
  childOpen : Bool
  cttyWriteOpen : Bool
deriving DecidableEq, Repr

/-- System-level actions of `pty_make_controlling_tty`, in program order. -/
inductive TtyAct where
  | ttyname
  | openDevTtyNoctty
  | openChildPty
  | openDevTtyWronly
  | closeFd
  | setsid
deriving DecidableEq, Repr

/-- A raised Python exception: an `OSError` from a system call, or a plain
`Exception` raised by a `raise` statement. -/
inductive PyExn where
  | osError (msg : String)
  | exception (msg : String)
deriving DecidableEq, Repr

/-- The message of the `raise Exception(...)` on utils.py lines 52-53. -/
def detachFailureMsg : String :=
  "Failed to disconnect from controlling tty. It is still possible to open /dev/tty."

/-- The body of the re-probe `try` block (utils.py lines 48-53): open
`/dev/tty` with `O_RDWR | O_NOCTTY`; if the open succeeds, close the
descriptor and `raise Exception(...)`; if the open fails, the `OSError`
propagates out of the body. -/
def reprobeBody (env : TtyEnv) : List TtyAct × Except PyExn Unit :=
  if env.reprobeOpen then
    ([.openDevTtyNoctty, .closeFd], .error (.exception detachFailureMsg))
  else
    ([.openDevTtyNoctty], .error (.osError "open /dev/tty"))

/-- A bare `except: pass` handler around a block: any exception the block
raised — whatever it was — is discarded. -/
def exceptPass (r : List TtyAct × Except PyExn Unit) : List TtyAct × Except PyExn Unit :=
  (r.1, .ok ())

/-- Transcription of `pty_make_controlling_tty(tty_fd)`:

1. `child_name = os.ttyname(tty_fd)`;
2. best-effort detach: open `/dev/tty` (`O_RDWR | O_NOCTTY`) and close it if
   it opened, under a bare `except: pass`;
3. `os.setsid()`;
4. the re-probe block `reprobeBody`, under a bare `except: pass` — note that
   this handler wraps the whole block, its own `raise` included;
5. open the child pty read-write and close it (an `OSError` here propagates);
6. open `/dev/tty` write-only and close it (an `OSError` here propagates). -/
def pty_make_controlling_tty (env : TtyEnv) : List TtyAct × Except PyExn Unit :=
  let probe1 : List TtyAct :=
    if env.probeOpen then [.openDevTtyNoctty, .closeFd] else [.openDevTtyNoctty]
  let reprobe := exceptPass (reprobeBody env)
  let tr := [TtyAct.ttyname] ++ probe1 ++ [TtyAct.setsid] ++ reprobe.1
  if env.childOpen then
    let tr := tr ++ [TtyAct.openChildPty, TtyAct.closeFd]
    if env.cttyWriteOpen then
      (tr ++ [TtyAct.openDevTtyWronly, TtyAct.closeFd], .ok ())
    else
      (tr ++ [TtyAct.openDevTtyWronly], .error (.osError "open /dev/tty write-only"))
  else
    (tr ++ [TtyAct.openChildPty], .error (.osError "open child pty"))

/-! ## Theorems -/

/-- C1: on a run where the detachment re-probe open of `/dev/tty`
unexpectedly succeeds, the body of the re-probe block does raise the
detachment-failure exception — but the bare `except: pass` wrapped around
that same block swallows it, so `pty_make_controlling_tty` does not fail
with the detachment error: it takes all further steps (opens the child pty
and then `/dev/tty` write-only) and returns successfully. -/
theorem reprobe_success_swallowed :
    (reprobeBody ⟨true, true, true, true⟩).2 =
      Except.error (PyExn.exception detachFailureMsg) ∧
    pty_make_controlling_tty ⟨true, true, true, true⟩ =
      ([.ttyname, .openDevTtyNoctty, .closeFd, .setsid, .openDevTtyNoctty, .closeFd,
        .openChildPty, .closeFd, .openDevTtyWronly, .closeFd], .ok ()) :=
  ⟨rfl, rfl⟩

/-- C2 counterexample: with the fork failing (`ENOMEM`) at stage 1 in one
run and at stage 2 in another, both runs of `daemonize` terminate via
`sys.exit` with the *same* status 1 — the exit statuses of the two stages
are not distinct. -/
theorem fork_failure_statuses_equal :
    (daemonizeDefault (fun _ => .fail 12 "Cannot allocate memory")).2 = .exit 1 ∧
    (daemonizeDefault
        (fun n => if n = 0 then .child else .fail 12 "Cannot allocate memory")).2 =
      .exit 1 :=
  ⟨rfl, rfl⟩

/-- C2 amended: a fork failure at either stage of `daemonize` is fatal — a
stage-identifying message is written to standard error (still the original
controlling terminal: no stream has been redirected at that point in the
trace) and the process terminates immediately with exit status 1 at both
stages (the stages differ in message, not status); the trace contains no
further fork attempt, so the failure is never retried. -/
theorem fork_failure_fatal (errno : Nat) (strerror : String) :
    daemonizeDefault (fun _ => .fail errno strerror) =
      ([.fork,
        .writeStderr ("fork #1 failed: (" ++ toString errno ++ ") " ++ strerror ++ "\n")],
       .exit 1) ∧
    daemonizeDefault (fun n => if n = 0 then .child else .fail errno strerror) =
      ([.fork, .chdir "/", .umask 0, .setsid, .fork,
        .writeStderr ("fork #2 failed: (" ++ toString errno ++ ") " ++ strerror ++ "\n")],
       .exit 1) :=
  ⟨rfl, rfl⟩

/-- C3 counterexample: in the grandchild's run of `daemonize` (both forks
answer "child"), the actions the grandchild itself executes — those recorded
after the second fork — are exactly the stream redirections: the grandchild
does not execute `setsid` (that happened before the second fork, in the
intermediate child), contradicting the claim that the grandchild is the
process that starts the new session. -/
theorem grandchild_does_not_setsid :
    afterSecondFork (daemonizeDefault (fun _ => .child)).1 =
      [.openFile "/dev/null" "rb" none, .openFile "/dev/null" "ab+" none,
       .openFile "/dev/null" "ab+" (some 0), .dup2 0, .dup2 1, .dup2 2] ∧
    DAct.setsid ∉ afterSecondFork (daemonizeDefault (fun _ => .child)).1 :=
  ⟨rfl, by decide⟩

/-- C3 amended: the decoupling steps of `daemonize` run between the two
forks: for any stream paths, the intermediate child — the process created by
the first fork — executes `chdir "/"`, `umask 0` and `setsid`, in that
order, before the second fork; the grandchild created by the second fork
then executes only the stream redirections and returns `Daemon` (1),
inheriting the decoupled environment. -/
theorem decoupling_by_intermediate_child (si so se : String) :
    betweenForks (daemonize si so se (fun _ => .child)).1 =
      [.chdir "/", .umask 0, .setsid] ∧
    afterSecondFork (daemonize si so se (fun _ => .child)).1 =
      [.openFile si "rb" none, .openFile so "ab+" none, .openFile se "ab+" (some 0),
       .dup2 0, .dup2 1, .dup2 2] ∧
    (daemonize si so se (fun _ => .child)).2 = .ret 1 :=
  ⟨rfl, rfl, rfl⟩

/-- C4: `daemonize` returns `Parent` (0) exactly in the originally invoking
process — the run whose first fork answers with a child pid — and only after
that process has synchronously waited for its immediate child; the surviving
grandchild's run returns `Daemon` (1) after opening the supplied paths —
standard input read-only, standard output in append mode, standard error in
append mode unbuffered — and installing them over streams 0, 1, 2; the
default for all three paths is the null device. -/
theorem daemonize_roles (si so se : String) (fa : Nat → ForkAnswer) (pid : Nat) :
    (fa 0 = .parent pid → daemonize si so se fa = ([.fork, .waitpid pid], .ret 0)) ∧
    ((daemonize si so se fa).2 = .ret 0 ↔ ∃ p, fa 0 = .parent p) ∧
    (fa 0 = .child → fa 1 = .child →
      daemonize si so se fa =
        ([.fork, .chdir "/", .umask 0, .setsid, .fork,
          .openFile si "rb" none, .openFile so "ab+" none, .openFile se "ab+" (some 0),
          .dup2 0, .dup2 1, .dup2 2], .ret 1)) ∧
    (∀ g : Nat → ForkAnswer, daemonizeDefault g = daemonize "/dev/null" "/dev/null" "/dev/null" g) := by
  refine ⟨fun h => by simp [daemonize, h], ?_, fun h0 h1 => by simp [daemonize, h0, h1],
    fun g => rfl⟩
  cases h : fa 0 with
  | parent p => simp [daemonize, h]
  | child => cases h2 : fa 1 <;> simp [daemonize, h, h2]
  | fail errno strerror => simp [daemonize, h]

/-- Witness for C4: both hypotheses of `daemonize_roles` discharged at
concrete fork answers. -/
theorem daemonize_roles_witness :
    daemonize "/dev/null" "/dev/null" "/dev/null" (fun _ => .parent 42) =
      ([.fork, .waitpid 42], .ret 0) ∧
    daemonize "/dev/null" "/dev/null" "/dev/null" (fun _ => .child) =
      ([.fork, .chdir "/", .umask 0, .setsid, .fork,
        .openFile "/dev/null" "rb" none, .openFile "/dev/null" "ab+" none,
        .openFile "/dev/null" "ab+" (some 0), .dup2 0, .dup2 1, .dup2 2], .ret 1) :=
  ⟨(daemonize_roles "/dev/null" "/dev/null" "/dev/null" (fun _ => .parent 42) 42).1 rfl,
   (daemonize_roles "/dev/null" "/dev/null" "/dev/null" (fun _ => .child) 0).2.2.1 rfl rfl⟩

/-- C5: a `nonblocking` scope restores, on release, exactly the flag word
read immediately before the acquire — for every body, including one that
raises (the body's outcome, error or not, passes through unchanged while the
flags are restored) — and across any sequence of acquire/release pairs the
flags after each release equal the flags before the corresponding acquire. -/
theorem nonblocking_restores_flags {ε : Type} (flags : Nat) (body : ScopeBody ε)
    (bodies : List (ScopeBody ε)) :
    (withNonblocking flags body).2 = flags ∧
    (withNonblocking flags body).1 = (body (flags ||| O_NONBLOCK)).1 ∧
    runScopes flags bodies = flags := by
  refine ⟨rfl, rfl, ?_⟩
  induction bodies with
  | nil => rfl
  | cons b bs ih => exact ih

/-- C6: with ttl = 0 the wrapped computation runs exactly once per
(instance, attribute name): the first access on a fresh instance invokes it
and stores `(value, now)`, and every access that finds a stored entry
returns that entry's value, leaves the instance unchanged and does not
invoke the computation — for any access time (no expiry ever) and any
instance state (mutations of the state the computation reads are not
observed). -/
theorem ttl_zero_computes_once {σ α : Type} (fget : σ → α) (name : String)
    (st : σ) (t1 t2 : Int) (i : Inst σ α) (v : α) (tv : Int)
    (c : List (String × α × Int))
    (hc : i.cache = some c) (hv : c.lookup name = some (v, tv)) :
    cached_property.get ⟨0, name, fget⟩ ⟨st, none⟩ t1 =
      (fget st, ⟨st, some [(name, fget st, t1)]⟩, true) ∧
    cached_property.get ⟨0, name, fget⟩ i t2 = (v, i, false) := by
  constructor
  · rfl
  · simp [cached_property.get, hc, hv]

/-- Witness for C6: first access on a fresh instance computes 6 and stores
it; a later access at a far later time on an instance with mutated state but
the same stored entry still returns 6 without recomputing. -/
theorem ttl_zero_computes_once_witness :
    cached_property.get ⟨0, "attr", fun (s : Nat) => s + 1⟩ ⟨5, none⟩ 10 =
      (6, ⟨5, some [("attr", 6, 10)]⟩, true) ∧
    cached_property.get ⟨0, "attr", fun (s : Nat) => s + 1⟩
        ⟨99, some [("attr", 6, 10)]⟩ 100000 =
      (6, ⟨99, some [("attr", 6, 10)]⟩, false) :=
  ttl_zero_computes_once (fun s => s + 1) "attr" 5 10 100000
    ⟨99, some [("attr", 6, 10)]⟩ 6 10 [("attr", 6, 10)] rfl rfl

/-- C7: with ttl = T > 0, an access that finds a stored entry recomputes and
overwrites the entry with `(new value, now)` if and only if the elapsed time
since the stored timestamp strictly exceeds T; otherwise it returns the
stored value, unchanged, without invoking the computation. -/
theorem ttl_positive_recompute_iff {σ α : Type} (fget : σ → α) (name : String)
    (T : Int) (hT : 0 < T) (st : σ) (c : List (String × α × Int)) (v : α)
    (tv now : Int) (hv : c.lookup name = some (v, tv)) :
    cached_property.get ⟨T, name, fget⟩ ⟨st, some c⟩ now =
      (if now - tv > T
       then (fget st, ⟨st, some (dictSet c name (fget st, now))⟩, true)
       else (v, ⟨st, some c⟩, false)) := by
  by_cases h : now - tv > T
  · simp [cached_property.get, hv, h, hT]
  · simp [cached_property.get, hv, h, hT]

/-- Witness for C7: with T = 5 and an entry stored at time 100, an access at
time 106 (elapsed 6 > 5) recomputes and overwrites, while an access at time
105 (elapsed 5, not strictly greater) returns the stored value without
recomputing. -/
theorem ttl_positive_recompute_iff_witness :
    cached_property.get ⟨5, "attr", fun (s : Nat) => s * 10⟩
        ⟨3, some [("attr", 7, 100)]⟩ 106 =
      (30, ⟨3, some [("attr", 30, 106)]⟩, true) ∧
    cached_property.get ⟨5, "attr", fun (s : Nat) => s * 10⟩
        ⟨3, some [("attr", 7, 100)]⟩ 105 =
      (7, ⟨3, some [("attr", 7, 100)]⟩, false) := by
  constructor
  · have h := ttl_positive_recompute_iff (fun (s : Nat) => s * 10) "attr" 5
      (by decide) 3 [("attr", 7, 100)] 7 100 106 rfl
    rw [if_pos (by decide)] at h
    exact h
  · have h := ttl_positive_recompute_iff (fun (s : Nat) => s * 10) "attr" 5
      (by decide) 3 [("attr", 7, 100)] 7 100 105 rfl
    rw [if_neg (by decide)] at h
    exact h

/-- C8: cache entries live on the owning instance, so instances are
independent: any sequence of operations on instance `a` — accesses that
compute or overwrite, and manual invalidations — leaves instance `b`
(state and cache) literally unchanged, and hence leaves the value any
subsequent access observes on `b` unchanged as well. -/
theorem instances_independent {σ α : Type} (p : cached_property σ α)
    (w : TwoInsts σ α) (ops : List CacheOp) (t : Int) :
    (runOnA p w ops).b = w.b ∧
    cached_property.get p (runOnA p w ops).b t = cached_property.get p w.b t := by
  have hb : ∀ w' : TwoInsts σ α, (runOnA p w' ops).b = w'.b := by
    induction ops with
    | nil => intro w'; rfl
    | cons op ops ih => intro w'; cases op <;> exact ih _
  exact ⟨hb w, by rw [hb w]⟩

/-- C9: `set_terminal_size` transmits the four-field window-size structure
with both pixel fields always 0; every in-range rows/cols pair — including
the degenerate rows = 0 and cols = 0 — is passed through unvalidated and
without error on an open pty endpoint, and the call fails with the
I/O-control error when the descriptor is not an open pty endpoint (already
closed, or not a terminal). -/
theorem set_terminal_size_transmits (rows cols : Int)
    (hr : fitsSignedShort rows = true) (hc : fitsSignedShort cols = true) :
    set_terminal_size .openPtyEndpoint rows cols = .ok ⟨rows, cols, 0, 0⟩ ∧
    set_terminal_size .closedDescriptor rows cols = .error .ioControlError ∧
    set_terminal_size .nonTerminal rows cols = .error .ioControlError ∧
    set_terminal_size .openPtyEndpoint 0 0 = .ok ⟨0, 0, 0, 0⟩ := by
  have hall : ([rows, cols, 0, 0].all fitsSignedShort) = true := by
    simp [List.all_cons, hr, hc]; rfl
  refine ⟨?_, ?_, ?_, rfl⟩ <;> simp [set_terminal_size, arrayH, hall]

/-- Witness for C9: the degenerate size (0, 0) is accepted and transmitted
unchanged on an open pty endpoint, and rejected with the I/O-control error
on a closed descriptor. -/
theorem set_terminal_size_transmits_witness :
    set_terminal_size .openPtyEndpoint 0 0 = .ok ⟨0, 0, 0, 0⟩ ∧
    set_terminal_size .closedDescriptor 0 0 = .error .ioControlError :=
  ⟨(set_terminal_size_transmits 0 0 rfl rfl).1,
   (set_terminal_size_transmits 0 0 rfl rfl).2.1⟩

/-- C10: when rows or cols exceeds 32767 or is below -32768, packing the
signed-16-bit buffer overflows and `set_terminal_size` fails with the
overflow error on *every* descriptor — an open pty endpoint included — so no
window-size request reaches the kernel, even though values up to 65535 would
fit the kernel's unsigned 16-bit window-size fields. -/
theorem set_terminal_size_overflow (fd : FdKind) (rows cols : Int)
    (h : 32767 < rows ∨ rows < -32768 ∨ 32767 < cols ∨ cols < -32768) :
    set_terminal_size fd rows cols = .error .overflowError := by
  have hx : ¬ ([rows, cols, 0, 0].all fitsSignedShort = true) := by
    simp only [List.all_cons, List.all_nil, Bool.and_eq_true, fitsSignedShort,
      decide_eq_true_eq]
    rintro ⟨⟨h1r, h2r⟩, ⟨h1c, h2c⟩, -⟩
    rcases h with h | h | h | h <;> omega
  unfold set_terminal_size arrayH
  rw [if_neg hx]

/-- Witness for C10: rows = 65535 — which would fit an unsigned 16-bit field
— overflows the signed buffer even on an open pty endpoint. -/
theorem set_terminal_size_overflow_witness :
    set_terminal_size .openPtyEndpoint 65535 80 = .error .overflowError :=
  set_terminal_size_overflow .openPtyEndpoint 65535 80 (Or.inl (by decide))

end Pymux
